import Mathlib

/-!
Verification of the session-scoped volumetric refinement pipeline of
interactive-server.py: scribble view detection, gaussian distance-map
synthesis, channel writes, the prepare/process session protocol and the
DICOM publish step.  Definitions mirror the Python source; theorems settle
the specification claims about them.
-/

namespace InteractiveServer

/-- A scribble point, as sent by the client: an (x, y, z) integer triple
(pydantic Tuple[int, int, int]). -/
abbrev Point := Int × Int × Int

/-- Coordinate of a point along numpy column index i (points3D[:, i]). -/
def coord (p : Point) : Nat → Int
  | 0 => p.1
  | 1 => p.2.1
  | 2 => p.2.2
  | _ => 0

/-- Mirrors np.unique(points3D[:, i]).shape[0] == 1: true when the list is
non-empty and all points share the coordinate at index i (an empty column
has zero unique values, so the test is false). -/
def allEqAt (pts : List Point) (i : Nat) : Bool :=
  match pts with
  | [] => false
  | p :: ps => ps.all (fun q => coord q i == coord p i)

/-- The three view names (KEY_SAGITTAL, KEY_CORONAL, KEY_AXIAL). -/
inductive ViewType where
  | sagittal
  | coronal
  | axial
  deriving DecidableEq, Repr

/-- The axis index a view name was derived from in getViewTypeAndSliceId. -/
def axisOf : ViewType → Nat
  | ViewType.sagittal => 0
  | ViewType.coronal => 1
  | ViewType.axial => 2

/-- Coordinate of the first point at index i (points3DAtIdx[0]); the source
only reads it after the uniqueness test succeeded, which forces the list to
be non-empty, so the default for [] is never relevant. -/
def headCoord (pts : List Point) (i : Nat) : Int :=
  match pts with
  | [] => 0
  | p :: _ => coord p i

/-- getViewTypeAndSliceId: scan axes 0, 1, 2 in order; the first axis on
which every point shares one coordinate value gives the view name and the
slice id (the shared value); otherwise (None, None), modelled as none. -/
def getViewTypeAndSliceId (pts : List Point) : Option (ViewType × Int) :=
  if allEqAt pts 0 then some (ViewType.sagittal, headCoord pts 0)
  else if allEqAt pts 1 then some (ViewType.coronal, headCoord pts 1)
  else if allEqAt pts 2 then some (ViewType.axial, headCoord pts 2)
  else none

lemma allEqAt_iff (p : Point) (ps : List Point) (i : Nat) :
    allEqAt (p :: ps) i = true ↔ ∀ q ∈ p :: ps, coord q i = coord p i := by
  simp only [allEqAt, List.all_eq_true, beq_iff_eq, List.mem_cons]
  constructor
  · rintro h q (rfl | hq)
    · rfl
    · exact h q hq
  · intro h q hq
    exact h q (Or.inr hq)

/-- C1: for every non-empty point list, getViewTypeAndSliceId returns the
first axis (in the fixed order 0 sagittal, 1 coronal, 2 axial) on which all
points share a single coordinate value, together with that shared value as
the slice id; and it returns none exactly when no axis has a single shared
value among all points. -/
theorem getViewTypeAndSliceId_first_shared_axis (p : Point) (ps : List Point) :
    (∀ v s, getViewTypeAndSliceId (p :: ps) = some (v, s) →
      (∀ q ∈ p :: ps, coord q (axisOf v) = s) ∧
      (∀ j, j < axisOf v → ¬ (∀ q ∈ p :: ps, coord q j = coord p j))) ∧
    (getViewTypeAndSliceId (p :: ps) = none →
      ∀ j, j < 3 → ¬ (∀ q ∈ p :: ps, coord q j = coord p j)) := by
  unfold getViewTypeAndSliceId
  split_ifs with h0 h1 h2
  · refine ⟨?_, ?_⟩
    · intro v s hvs
      obtain ⟨rfl, rfl⟩ : ViewType.sagittal = v ∧ headCoord (p :: ps) 0 = s := by
        constructor <;> [exact congrArg Prod.fst (Option.some.inj hvs);
          exact congrArg Prod.snd (Option.some.inj hvs)]
      refine ⟨?_, ?_⟩
      · intro q hq
        exact (allEqAt_iff p ps 0).mp h0 q hq
      · intro j hj
        exact absurd hj (by simp [axisOf])
    · intro h
      exact absurd h (by simp)
  · refine ⟨?_, ?_⟩
    · intro v s hvs
      obtain ⟨rfl, rfl⟩ : ViewType.coronal = v ∧ headCoord (p :: ps) 1 = s := by
        constructor <;> [exact congrArg Prod.fst (Option.some.inj hvs);
          exact congrArg Prod.snd (Option.some.inj hvs)]
      refine ⟨?_, ?_⟩
      · intro q hq
        exact (allEqAt_iff p ps 1).mp h1 q hq
      · intro j hj
        simp only [axisOf] at hj
        have hj0 : j = 0 := by omega
        subst hj0
        exact fun hall => h0 ((allEqAt_iff p ps 0).mpr hall)
    · intro h
      exact absurd h (by simp)
  · refine ⟨?_, ?_⟩
    · intro v s hvs
      obtain ⟨rfl, rfl⟩ : ViewType.axial = v ∧ headCoord (p :: ps) 2 = s := by
        constructor <;> [exact congrArg Prod.fst (Option.some.inj hvs);
          exact congrArg Prod.snd (Option.some.inj hvs)]
      refine ⟨?_, ?_⟩
      · intro q hq
        exact (allEqAt_iff p ps 2).mp h2 q hq
      · intro j hj
        simp only [axisOf] at hj
        interval_cases j
        · exact fun hall => h0 ((allEqAt_iff p ps 0).mpr hall)
        · exact fun hall => h1 ((allEqAt_iff p ps 1).mpr hall)
    · intro h
      exact absurd h (by simp)
  · refine ⟨?_, ?_⟩
    · intro v s hvs
      exact absurd hvs (by simp)
    · intro _ j hj hall
      interval_cases j
      · exact h0 ((allEqAt_iff p ps 0).mpr hall)
      · exact h1 ((allEqAt_iff p ps 1).mpr hall)
      · exact h2 ((allEqAt_iff p ps 2).mpr hall)

/-- Witness for C1 at the concrete scribble [(2,5,7),(2,6,8)]: axis 0 is
shared with value 2 and the detected view is sagittal. -/
theorem getViewTypeAndSliceId_first_shared_axis_witness :
    (∀ q ∈ [((2 : Int), 5, 7), ((2 : Int), 6, 8)],
        coord q (axisOf ViewType.sagittal) = 2) ∧
    (∀ j, j < axisOf ViewType.sagittal →
      ¬ (∀ q ∈ [((2 : Int), 5, 7), ((2 : Int), 6, 8)],
          coord q j = coord ((2 : Int), 5, 7) j)) :=
  (getViewTypeAndSliceId_first_shared_axis ((2 : Int), 5, 7)
    [((2 : Int), 6, 8)]).1 ViewType.sagittal 2 rfl

/-! ## Distance-map synthesis (getGaussianDistanceMap) -/

/-- Shape of the ctArray volume (numpy array of 3 dimensions). -/
structure Shape where
  d0 : Nat
  d1 : Nat
  d2 : Nat
  deriving DecidableEq, Repr

/-- A voxel index into the volume. -/
abbrev Voxel := Int × Int × Int

/-- The voxel a scribble point is written to, mirroring
points3DInVolume[points3D[:,1], points3D[:,0], points3D[:,2]] = 1: the
(x, y, z) point indexes the volume as (y, x, z). -/
def voxelOf (p : Point) : Voxel := (p.2.1, p.1, p.2.2)

/-- Whether a voxel is set in the scribble indicator volume. -/
def isScribble (pts : List Point) (v : Voxel) : Bool :=
  pts.any (fun p => voxelOf p == v)

/-- Boundedness of a voxel inside the volume (numpy would raise on an index
at or past a dimension; negative indices would wrap). -/
def inBoundsB (sh : Shape) (v : Voxel) : Bool :=
  decide (0 ≤ v.1) && decide (v.1 < (sh.d0 : Int)) &&
  decide (0 ≤ v.2.1) && decide (v.2.1 < (sh.d1 : Int)) &&
  decide (0 ≤ v.2.2) && decide (v.2.2 < (sh.d2 : Int))

/-- All voxels of the volume, in row-major order. -/
def gridVoxels (sh : Shape) : List Voxel :=
  (List.range sh.d0).flatMap (fun a =>
    (List.range sh.d1).flatMap (fun b =>
      (List.range sh.d2).map (fun c => ((a : Int), (b : Int), (c : Int)))))

/-- Per-axis sampling passed to scipy.ndimage.distance_transform_edt,
keyed on the detected view exactly as the source does. -/
def sampling (vt : ViewType) (distZ : ℤ) : ℤ × ℤ × ℤ :=
  match vt with
  | ViewType.axial => (1, 1, distZ)
  | ViewType.sagittal => (distZ, 1, 1)
  | ViewType.coronal => (1, distZ, 1)

/-- Squared anisotropic euclidean distance between two voxels, with each
axis difference scaled by its sampling weight. -/
def sqDistW (w : ℤ × ℤ × ℤ) (a b : Voxel) : ℤ :=
  (w.1 * (a.1 - b.1)) ^ 2 +
  (w.2.1 * (a.2.1 - b.2.1)) ^ 2 +
  (w.2.2 * (a.2.2 - b.2.2)) ^ 2

/-- Minimum of a list of integers (0 for the empty list; only applied to
non-empty lists in this development). -/
def listMinD : List ℤ → ℤ
  | [] => 0
  | [x] => x
  | x :: y :: t => min x (listMinD (y :: t))

/-- Maximum of a list of integers (0 for the empty list). -/
def listMaxD : List ℤ → ℤ
  | [] => 0
  | [x] => x
  | x :: y :: t => max x (listMaxD (y :: t))

/-- Squared distance from voxel v to the nearest scribble voxel: the exact
euclidean distance transform of the complement of the indicator volume,
squared (scipy.ndimage.distance_transform_edt(1 - points3DInVolume)). -/
def minSqDist (pts : List Point) (w : ℤ × ℤ × ℤ) (v : Voxel) : ℤ :=
  listMinD (pts.map (fun p => sqDistW w v (voxelOf p)))

/-- Squared maximum of the euclidean distance map over the whole volume
(euclideanDistanceMap.max(), squared). -/
def maxSqDist (sh : Shape) (pts : List Point) (w : ℤ × ℤ × ℤ) : ℤ :=
  listMaxD ((gridVoxels sh).map (minSqDist pts w))

/-- The euclidean distance transform value at a voxel. -/
noncomputable def edt (pts : List Point) (w : ℤ × ℤ × ℤ) (v : Voxel) : ℝ :=
  Real.sqrt ((minSqDist pts w v : ℤ) : ℝ)

/-- The maximum of the euclidean distance map over the volume. -/
noncomputable def maxEdt (sh : Shape) (pts : List Point) (w : ℤ × ℤ × ℤ) : ℝ :=
  Real.sqrt ((maxSqDist sh pts w : ℤ) : ℝ)

/-- The gaussian distance map value at a voxel: normalise the distance by
its maximum (euclideanDistanceMap = 1 - euclideanDistanceMap / maxVal) and
apply np.exp(-(1 - euclideanDistanceMap)**2 / (2 * sigma**2)). -/
noncomputable def gaussMap (sh : Shape) (pts : List Point) (w : ℤ × ℤ × ℤ)
    (sigma : ℚ) (v : Voxel) : ℝ :=
  let nd : ℝ := 1 - edt pts w v / maxEdt sh pts w
  Real.exp (-(1 - nd) ^ 2 / (2 * (sigma : ℝ) ^ 2))

/-- getGaussianDistanceMap: detect the view and slice; on failure return
early with no map (the source returns a bare None there); otherwise build
the indicator, distance-transform its complement with the view-dependent
sampling, normalise by the maximum and apply the gaussian falloff. -/
noncomputable def getGaussianDistanceMap (sh : Shape) (pts : List Point)
    (distZ : ℤ) (sigma : ℚ) : Option ((Voxel → ℝ) × ViewType × Int) :=
  match getViewTypeAndSliceId pts with
  | none => none
  | some (vt, s) => some (gaussMap sh pts (sampling vt distZ) sigma, vt, s)

lemma listMinD_mem : ∀ l : List ℤ, l ≠ [] → listMinD l ∈ l
  | [], h => absurd rfl h
  | [x], _ => by simp [listMinD]
  | x :: y :: t, _ => by
      rcases min_cases x (listMinD (y :: t)) with ⟨he, _⟩ | ⟨he, _⟩
      · simp [listMinD, he]
      · have := listMinD_mem (y :: t) (by simp)
        simp only [listMinD, he]
        exact List.mem_cons_of_mem x this

lemma listMinD_le : ∀ l : List ℤ, ∀ x ∈ l, listMinD l ≤ x
  | [], x, hx => absurd hx (by simp)
  | [a], x, hx => by simp_all [listMinD]
  | a :: b :: t, x, hx => by
      rcases List.mem_cons.mp hx with rfl | hx'
      · exact min_le_left _ _
      · exact le_trans (min_le_right _ _) (listMinD_le (b :: t) x hx')

lemma le_listMaxD : ∀ l : List ℤ, ∀ x ∈ l, x ≤ listMaxD l
  | [], x, hx => absurd hx (by simp)
  | [a], x, hx => by simp_all [listMaxD]
  | a :: b :: t, x, hx => by
      rcases List.mem_cons.mp hx with rfl | hx'
      · exact le_max_left _ _
      · exact le_trans (le_listMaxD (b :: t) x hx') (le_max_right _ _)

lemma listMaxD_mem : ∀ l : List ℤ, l ≠ [] → listMaxD l ∈ l
  | [], h => absurd rfl h
  | [x], _ => by simp [listMaxD]
  | x :: y :: t, _ => by
      rcases max_cases x (listMaxD (y :: t)) with ⟨he, _⟩ | ⟨he, _⟩
      · simp [listMaxD, he]
      · have := listMaxD_mem (y :: t) (by simp)
        simp only [listMaxD, he]
        exact List.mem_cons_of_mem x this

lemma sqDistW_nonneg (w : ℤ × ℤ × ℤ) (a b : Voxel) : 0 ≤ sqDistW w a b := by
  unfold sqDistW
  positivity

lemma sqDistW_self (w : ℤ × ℤ × ℤ) (a : Voxel) : sqDistW w a a = 0 := by
  simp [sqDistW]

lemma sqDistW_pos (w : ℤ × ℤ × ℤ) (hw1 : w.1 ≠ 0) (hw2 : w.2.1 ≠ 0)
    (hw3 : w.2.2 ≠ 0) (a b : Voxel) (hab : a ≠ b) : 0 < sqDistW w a b := by
  rcases lt_or_eq_of_le (sqDistW_nonneg w a b) with h | h
  · exact h
  exfalso
  apply hab
  have h1 : (w.1 * (a.1 - b.1)) ^ 2 = 0 ∧
      (w.2.1 * (a.2.1 - b.2.1)) ^ 2 = 0 ∧
      (w.2.2 * (a.2.2 - b.2.2)) ^ 2 = 0 := by
    have e1 := sq_nonneg (w.1 * (a.1 - b.1))
    have e2 := sq_nonneg (w.2.1 * (a.2.1 - b.2.1))
    have e3 := sq_nonneg (w.2.2 * (a.2.2 - b.2.2))
    unfold sqDistW at h
    refine ⟨by linarith, by linarith, by linarith⟩
  obtain ⟨e1, e2, e3⟩ := h1
  have c1 : a.1 = b.1 := by
    have := (mul_eq_zero.mp (pow_eq_zero_iff two_ne_zero |>.mp e1)).resolve_left hw1
    omega
  have c2 : a.2.1 = b.2.1 := by
    have := (mul_eq_zero.mp (pow_eq_zero_iff two_ne_zero |>.mp e2)).resolve_left hw2
    omega
  have c3 : a.2.2 = b.2.2 := by
    have := (mul_eq_zero.mp (pow_eq_zero_iff two_ne_zero |>.mp e3)).resolve_left hw3
    omega
  exact Prod.ext c1 (Prod.ext c2 c3)

lemma sampling_components_ne_zero (vt : ViewType) (distZ : ℤ) (h : distZ ≠ 0) :
    (sampling vt distZ).1 ≠ 0 ∧ (sampling vt distZ).2.1 ≠ 0 ∧
    (sampling vt distZ).2.2 ≠ 0 := by
  cases vt <;> simp [sampling, h]

lemma minSqDist_nonneg (pts : List Point) (w : ℤ × ℤ × ℤ) (v : Voxel) :
    0 ≤ minSqDist pts w v := by
  unfold minSqDist
  rcases pts with _ | ⟨p, ps⟩
  · simp [listMinD]
  · have hmem := listMinD_mem (((p :: ps).map (fun q => sqDistW w v (voxelOf q)))) (by simp)
    obtain ⟨q, _, hq⟩ := List.mem_map.mp hmem
    rw [← hq]
    exact sqDistW_nonneg w v (voxelOf q)

lemma minSqDist_eq_zero_of_scribble (pts : List Point) (w : ℤ × ℤ × ℤ)
    (v : Voxel) (h : isScribble pts v = true) : minSqDist pts w v = 0 := by
  obtain ⟨p, hp, hpv⟩ := List.any_eq_true.mp h
  have hpv' : voxelOf p = v := by simpa using hpv
  have hle : minSqDist pts w v ≤ sqDistW w v (voxelOf p) :=
    listMinD_le _ _ (List.mem_map.mpr ⟨p, hp, rfl⟩)
  rw [hpv'] at hle
  rw [sqDistW_self] at hle
  exact le_antisymm hle (minSqDist_nonneg pts w v)

lemma minSqDist_pos_of_not_scribble (pts : List Point) (w : ℤ × ℤ × ℤ)
    (hw1 : w.1 ≠ 0) (hw2 : w.2.1 ≠ 0) (hw3 : w.2.2 ≠ 0)
    (hne : pts ≠ []) (v : Voxel) (h : isScribble pts v = false) :
    0 < minSqDist pts w v := by
  unfold minSqDist
  have hmap : pts.map (fun p => sqDistW w v (voxelOf p)) ≠ [] := by
    simpa using hne
  have hmem := listMinD_mem _ hmap
  obtain ⟨p, hp, hq⟩ := List.mem_map.mp hmem
  rw [← hq]
  apply sqDistW_pos w hw1 hw2 hw3
  intro hvv
  have : isScribble pts v = true :=
    List.any_eq_true.mpr ⟨p, hp, by simp [hvv]⟩
  rw [this] at h
  exact absurd h (by simp)

lemma getViewTypeAndSliceId_ne_nil {pts : List Point} {x : ViewType × Int}
    (h : getViewTypeAndSliceId pts = some x) : pts ≠ [] := by
  intro hnil
  subst hnil
  simp [getViewTypeAndSliceId, allEqAt] at h

/-- The value the source divides by really is the maximum of the distance
map over the volume: every voxel's distance is bounded by maxEdt, and the
bound is attained at some voxel of a non-empty grid. -/
lemma maxEdt_is_max (sh : Shape) (pts : List Point) (w : ℤ × ℤ × ℤ) :
    (∀ v ∈ gridVoxels sh, edt pts w v ≤ maxEdt sh pts w) ∧
    (gridVoxels sh ≠ [] → ∃ v ∈ gridVoxels sh, edt pts w v = maxEdt sh pts w) := by
  constructor
  · intro v hv
    apply Real.sqrt_le_sqrt
    exact_mod_cast le_listMaxD _ _ (List.mem_map.mpr ⟨v, hv, rfl⟩)
  · intro hne
    have hmem := listMaxD_mem ((gridVoxels sh).map (minSqDist pts w)) (by simpa using hne)
    obtain ⟨v, hv, hval⟩ := List.mem_map.mp hmem
    exact ⟨v, hv, by rw [edt, maxEdt, maxSqDist, hval]⟩

/-- C2: whenever a view is detected and the maximum complement distance is
positive, the gaussian distance map takes values in [0, 1] over the whole
volume, attains the value 1 exactly at the scribbled voxels (indexed with
the (y, x, z) axis swap), and stays strictly below 1 everywhere else. -/
theorem getGaussianDistanceMap_range_and_peak (sh : Shape) (pts : List Point)
    (distZ : ℤ) (sigma : ℚ) (m : Voxel → ℝ) (vt : ViewType) (s : Int)
    (hdz : distZ ≠ 0) (hs : sigma ≠ 0)
    (hb : pts.all (fun p => inBoundsB sh (voxelOf p)) = true)
    (hres : getGaussianDistanceMap sh pts distZ sigma = some (m, vt, s))
    (hmax : 0 < maxSqDist sh pts (sampling vt distZ)) :
    ∀ v ∈ gridVoxels sh,
      0 ≤ m v ∧ m v ≤ 1 ∧
      (isScribble pts v = true → m v = 1) ∧
      (isScribble pts v = false → m v < 1) := by
  unfold getGaussianDistanceMap at hres
  rcases hview : getViewTypeAndSliceId pts with _ | ⟨vt', s'⟩
  · rw [hview] at hres
    exact absurd hres (by simp)
  rw [hview] at hres
  have hm : m = gaussMap sh pts (sampling vt' distZ) sigma ∧ vt' = vt ∧ s' = s := by
    have := Option.some.inj hres
    refine ⟨(congrArg Prod.fst this).symm, ?_, ?_⟩
    · exact congrArg (fun x => x.2.1) this
    · exact congrArg (fun x => x.2.2) this
  obtain ⟨rfl, rfl, rfl⟩ := hm
  set w := sampling vt' distZ with hw
  obtain ⟨hw1, hw2, hw3⟩ := sampling_components_ne_zero vt' distZ hdz
  have hne : pts ≠ [] := getViewTypeAndSliceId_ne_nil hview
  have hsig : (0 : ℝ) < 2 * (sigma : ℝ) ^ 2 := by
    have : ((sigma : ℝ)) ≠ 0 := by exact_mod_cast hs
    positivity
  have hmaxR : (0 : ℝ) < maxEdt sh pts w := by
    rw [maxEdt]
    apply Real.sqrt_pos.mpr
    exact_mod_cast hmax
  intro v _
  have hval : gaussMap sh pts w sigma v =
      Real.exp (-(edt pts w v / maxEdt sh pts w) ^ 2 / (2 * (sigma : ℝ) ^ 2)) := by
    unfold gaussMap
    ring_nf
  have hedt0 : 0 ≤ edt pts w v := Real.sqrt_nonneg _
  refine ⟨?_, ?_, ?_, ?_⟩
  · rw [hval]
    exact le_of_lt (Real.exp_pos _)
  · rw [hval]
    rw [← Real.exp_zero]
    apply Real.exp_le_exp.mpr
    apply div_nonpos_of_nonpos_of_nonneg _ (le_of_lt hsig)
    simp [sq_nonneg]
  · intro hscr
    have he : edt pts w v = 0 := by
      rw [edt, minSqDist_eq_zero_of_scribble pts w v hscr]
      simp
    rw [hval, he]
    simp
  · intro hscr
    have he : 0 < edt pts w v := by
      rw [edt]
      apply Real.sqrt_pos.mpr
      exact_mod_cast minSqDist_pos_of_not_scribble pts w hw1 hw2 hw3 hne v hscr
    rw [hval, ← Real.exp_zero]
    apply Real.exp_lt_exp.mpr
    apply div_neg_of_neg_of_pos _ hsig
    have hq : 0 < edt pts w v / maxEdt sh pts w := div_pos he hmaxR
    have hsq := pow_pos hq 2
    linarith

/-- Witness for C2: a 2x2x2 volume with the single scribble point (0,0,0),
distZ = 3, sigma = 1/200; the sagittal view is detected and the maximum
squared distance is 11 > 0. -/
theorem getGaussianDistanceMap_range_and_peak_witness :
    0 ≤ gaussMap ⟨2, 2, 2⟩ [((0 : Int), 0, 0)] (sampling ViewType.sagittal 3)
        (1 / 200) ((0 : Int), 0, 0) ∧
    gaussMap ⟨2, 2, 2⟩ [((0 : Int), 0, 0)] (sampling ViewType.sagittal 3)
        (1 / 200) ((0 : Int), 0, 0) ≤ 1 ∧
    (isScribble [((0 : Int), 0, 0)] ((0 : Int), 0, 0) = true →
      gaussMap ⟨2, 2, 2⟩ [((0 : Int), 0, 0)] (sampling ViewType.sagittal 3)
        (1 / 200) ((0 : Int), 0, 0) = 1) ∧
    (isScribble [((0 : Int), 0, 0)] ((0 : Int), 0, 0) = false →
      gaussMap ⟨2, 2, 2⟩ [((0 : Int), 0, 0)] (sampling ViewType.sagittal 3)
        (1 / 200) ((0 : Int), 0, 0) < 1) :=
  getGaussianDistanceMap_range_and_peak ⟨2, 2, 2⟩ [((0 : Int), 0, 0)] 3 (1 / 200)
    (gaussMap ⟨2, 2, 2⟩ [((0 : Int), 0, 0)] (sampling ViewType.sagittal 3) (1 / 200))
    ViewType.sagittal 0 (by decide) (by norm_num) (by decide) rfl (by decide)
    ((0 : Int), 0, 0) (by decide)

/-- C9 counterexample: on a 1x1x1 volume whose single voxel is scribbled,
the maximum complement distance is 0, yet getGaussianDistanceMap does not
fail: it proceeds past the normalisation and returns a map. -/
theorem getGaussianDistanceMap_zero_max_no_failure_cex :
    maxSqDist ⟨1, 1, 1⟩ [((0 : Int), 0, 0)] (sampling ViewType.sagittal 3) = 0 ∧
    (getGaussianDistanceMap ⟨1, 1, 1⟩ [((0 : Int), 0, 0)] 3 (1 / 200)).isSome = true := by
  constructor
  · decide
  · rfl

/-- C9 amended: getGaussianDistanceMap has no empty-distance-field guard at
all; it returns none exactly when view detection fails, and in every other
case (a zero maximum included) it performs the normalisation division and
returns a map. -/
theorem getGaussianDistanceMap_none_iff_ambiguous (sh : Shape)
    (pts : List Point) (distZ : ℤ) (sigma : ℚ) :
    getGaussianDistanceMap sh pts distZ sigma = none ↔
    getViewTypeAndSliceId pts = none := by
  unfold getGaussianDistanceMap
  rcases h : getViewTypeAndSliceId pts with _ | ⟨vt, s⟩ <;> simp

/-! ## Tensors and the scribble channel write (getDistanceMap) -/

/-- The session's cached 5-channel volume tensor (torch tensor of shape
[1, 5, Z, Y, X]; the leading batch dimension is dropped).  Channel 0 = CT,
1 = PET, 2 = prior prediction, 3 = foreground prior, 4 = background prior.
The cached tensor only ever holds integer-valued data (int16 volumes,
binary masks, zeros), so channels are modelled over the integers. -/
structure Tensor where
  shape : Shape
  chan : Fin 5 → Voxel → ℤ

/-- The working copy of the tensor a refinement turn computes with; its
channels take real values because the gaussian prior is written into it. -/
structure RTensor where
  shape : Shape
  chan : Fin 5 → Voxel → ℝ

/-- The deep copy taken at the start of a turn
(copy.deepcopy(patientData[KEY_TORCH_DATA])), as a real-valued tensor. -/
noncomputable def toR (t : Tensor) : RTensor :=
  ⟨t.shape, fun i v => ((t.chan i v : ℤ) : ℝ)⟩

/-- In-place write of one channel of the working tensor
(preparedDataTorch[0, i] = ...). -/
noncomputable def setChanR (t : RTensor) (i : Fin 5) (f : Voxel → ℝ) : RTensor :=
  ⟨t.shape, fun j v => if j = i then f v else t.chan j v⟩

/-- torch.sum over one channel of the cached tensor. -/
def tensorSum (t : Tensor) (i : Fin 5) : ℤ :=
  ((gridVoxels t.shape).map (t.chan i)).sum

/-- KEY_SCRIBBLE_FGD. -/
def KEY_SCRIBBLE_FGD : String := "fgd"

/-- KEY_SCRIBBLE_BGD. -/
def KEY_SCRIBBLE_BGD : String := "bgd"

/-- DISTMAP_Z. -/
def DISTMAP_Z : ℤ := 3

/-- DISTMAP_SIGMA (0.005). -/
def DISTMAP_SIGMA : ℚ := 1 / 200

/-- The observable condition getDistanceMap leaves behind when it does not
write a prior: the swallowed unpack error of an ambiguous scribble (the
broad except around the getGaussianDistanceMap call), or the printed
unknown-scribble-type message of the final else branch. -/
inductive DistErr where
  | ambiguous
  | unknownType
  deriving DecidableEq, Repr

/-- getDistanceMap: dispatch on the scribble type; foreground writes the
gaussian map into channel 3, background into channel 4; when view
detection fails the bare None return makes the 3-way unpacking raise and
the except clause returns the tensor unchanged; any other scribble type
prints the unknown-type message and returns the tensor unchanged. -/
noncomputable def getDistanceMap (t : RTensor) (scribbleType : String)
    (pts : List Point) (distMapZ : ℤ) (distMapSigma : ℚ) :
    RTensor × Option DistErr :=
  if scribbleType = KEY_SCRIBBLE_FGD then
    match getGaussianDistanceMap t.shape pts distMapZ distMapSigma with
    | some (m, _, _) => (setChanR t 3 m, none)
    | none => (t, some DistErr.ambiguous)
  else if scribbleType = KEY_SCRIBBLE_BGD then
    match getGaussianDistanceMap t.shape pts distMapZ distMapSigma with
    | some (m, _, _) => (setChanR t 4 m, none)
    | none => (t, some DistErr.ambiguous)
  else (t, some DistErr.unknownType)

/-- C3: a foreground scribble writes only channel 3 (channel 4 and all
other channels are untouched), a background scribble writes only channel 4
(channel 3 untouched), and any other scribble type leaves the tensor
completely unmodified and reports the unsupported-scribble-type
condition. -/
theorem getDistanceMap_channel_frame (t : RTensor) (pts : List Point)
    (distMapZ : ℤ) (distMapSigma : ℚ) :
    (∀ i : Fin 5, i ≠ 3 →
      ((getDistanceMap t KEY_SCRIBBLE_FGD pts distMapZ distMapSigma).1).chan i
        = t.chan i) ∧
    (∀ i : Fin 5, i ≠ 4 →
      ((getDistanceMap t KEY_SCRIBBLE_BGD pts distMapZ distMapSigma).1).chan i
        = t.chan i) ∧
    (∀ st : String, st ≠ KEY_SCRIBBLE_FGD → st ≠ KEY_SCRIBBLE_BGD →
      getDistanceMap t st pts distMapZ distMapSigma
        = (t, some DistErr.unknownType)) := by
  refine ⟨?_, ?_, ?_⟩
  · intro i hi
    unfold getDistanceMap
    rw [if_pos rfl]
    rcases hg : getGaussianDistanceMap t.shape pts distMapZ distMapSigma with
      _ | ⟨m, vt, s⟩
    · rfl
    · funext v
      simp [setChanR, hi]
  · intro i hi
    unfold getDistanceMap
    rw [if_neg (by decide), if_pos rfl]
    rcases hg : getGaussianDistanceMap t.shape pts distMapZ distMapSigma with
      _ | ⟨m, vt, s⟩
    · rfl
    · funext v
      simp [setChanR, hi]
  · intro st h1 h2
    unfold getDistanceMap
    rw [if_neg h1, if_neg h2]

/-- Witness for C3 on a concrete tensor: the foreground write leaves
channel 4 unchanged, the background write leaves channel 3 unchanged, and
the scribble type "xyz" is rejected with the tensor unmodified. -/
theorem getDistanceMap_channel_frame_witness :
    ((getDistanceMap ⟨⟨2, 2, 2⟩, fun _ _ => 0⟩ KEY_SCRIBBLE_FGD
        [((0 : Int), 0, 0)] 3 (1 / 200)).1).chan 4
      = (⟨⟨2, 2, 2⟩, fun _ _ => 0⟩ : RTensor).chan 4 ∧
    ((getDistanceMap ⟨⟨2, 2, 2⟩, fun _ _ => 0⟩ KEY_SCRIBBLE_BGD
        [((0 : Int), 0, 0)] 3 (1 / 200)).1).chan 3
      = (⟨⟨2, 2, 2⟩, fun _ _ => 0⟩ : RTensor).chan 3 ∧
    getDistanceMap ⟨⟨2, 2, 2⟩, fun _ _ => 0⟩ "xyz"
        [((0 : Int), 0, 0)] 3 (1 / 200)
      = (⟨⟨2, 2, 2⟩, fun _ _ => 0⟩, some DistErr.unknownType) :=
  ⟨(getDistanceMap_channel_frame ⟨⟨2, 2, 2⟩, fun _ _ => 0⟩
      [((0 : Int), 0, 0)] 3 (1 / 200)).1 4 (by decide),
   (getDistanceMap_channel_frame ⟨⟨2, 2, 2⟩, fun _ _ => 0⟩
      [((0 : Int), 0, 0)] 3 (1 / 200)).2.1 3 (by decide),
   (getDistanceMap_channel_frame ⟨⟨2, 2, 2⟩, fun _ _ => 0⟩
      [((0 : Int), 0, 0)] 3 (1 / 200)).2.2 "xyz" (by decide) (by decide)⟩

/-! ## Session state, prepare, publish and process -/

/-- One archive series locator (pydantic SearchObj). -/
structure SearchObj where
  studyInstanceUID : String
  seriesInstanceUID : String
  sopInstanceUID : String
  wadoRsRoot : String
  deriving DecidableEq, Repr

/-- The payload of /prepare (pydantic PreparedData); its dict form is what
a session stores under KEY_DATA and compares for deep equality. -/
structure PreparedData where
  searchObjCT : SearchObj
  searchObjPET : SearchObj
  searchObjRTSGT : SearchObj
  searchObjRTSPred : SearchObj
  caseName : String
  deriving DecidableEq, Repr

/-- One per-patient session record (SESSIONSGLOBAL[client][patient]).
data none models the initial empty dict; torchData none models the empty
dict / cleared list before a successful CT fetch. -/
structure PatientData where
  data : Option PreparedData
  torchData : Option Tensor
  dcmList : List String
  scribbleCounter : Nat
  segSOPInstanceUID : String
  segSeriesInstanceUID : String
  segOrthancID : Option String
  dateTime : String

/-- The global session table keyed by (clientIdentifier, caseName). -/
def Store := String → String → Option PatientData

/-- The empty session table. -/
def emptyStore : Store := fun _ _ => none

/-- Write one session entry. -/
def updateStore (s : Store) (cid pname : String) (pd : PatientData) : Store :=
  fun c p => if c = cid ∧ p = pname then some pd else s c p

/-- A freshly created session record, as built on first contact in
/prepare: empty data, zero scribble counter, fresh SEG UIDs, no published
orthanc id. -/
def freshPatientData (sop ser dt : String) : PatientData :=
  ⟨none, none, [], 0, sop, ser, none, dt⟩

/-- The CT series fetch result: the volume shape, the voxel data and the
sorted instance list (getCTArray). -/
structure FetchedCT where
  shape : Shape
  arr : Voxel → ℤ
  dcms : List String

/-- The 5-channel tensor right after getCTArray: zeros everywhere except
channel 0, which holds the CT volume. -/
def buildTensor (sh : Shape) (ct : Voxel → ℤ) : Tensor :=
  ⟨sh, fun i v => if i = 0 then ct v else 0⟩

/-- Write one channel of the cached tensor (used while assembling it). -/
def setChan (t : Tensor) (i : Fin 5) (f : Voxel → ℤ) : Tensor :=
  ⟨t.shape, fun j v => if j = i then f v else t.chan j v⟩

/-- The fetch cascade of /prepare after a descriptor change: getCTArray,
then (if the CT arrived) getPTArray into channel 1, then (if the PET
arrived) getSEGs into channel 2.  The outcome of each archive call is an
oracle argument; the returned list records which series were fetched. -/
def fetchSession (dcmAvail : Bool) (ctR : Option FetchedCT)
    (ptR : Option (Voxel → ℤ)) (segR : Option (Voxel → ℤ))
    (pd : PatientData) : PatientData × List String :=
  if dcmAvail then
    match ctR with
    | none => (pd, ["CT"])
    | some f =>
      let pd1 := { pd with torchData := some (buildTensor f.shape f.arr),
                           dcmList := f.dcms }
      match ptR with
      | none => (pd1, ["CT", "PT"])
      | some pt =>
        let pd2 := { pd1 with
          torchData := (pd1.torchData).map (fun t => setChan t 1 pt) }
        match segR with
        | none => (pd2, ["CT", "PT", "SEG"])
        | some seg =>
          ({ pd2 with
             torchData := (pd2.torchData).map (fun t => setChan t 2 seg) },
           ["CT", "PT", "SEG"])
  else (pd, [])

/-- The /prepare endpoint: ensure the session entry exists, compare the
stored KEY_DATA against the incoming payload; on deep equality return with
dataAlreadyPresent = true and no archive traffic; otherwise store the new
descriptor, clear the tensor and run the fetch cascade.  Returns the new
store, the dataAlreadyPresent flag and the list of archive fetches. -/
def prepare (store : Store) (cid pname : String) (payload : PreparedData)
    (freshSOP freshSeries freshDT : String) (dcmAvail : Bool)
    (ctR : Option FetchedCT) (ptR : Option (Voxel → ℤ))
    (segR : Option (Voxel → ℤ)) : Store × Bool × List String :=
  let store1 :=
    if (store cid pname).isSome then store
    else updateStore store cid pname (freshPatientData freshSOP freshSeries freshDT)
  match store1 cid pname with
  | none => (store1, false, [])
  | some pd =>
    if pd.data = some payload then (store1, true, [])
    else
      let pd0 := { pd with data := some payload, torchData := none }
      let fr := fetchSession dcmAvail ctR ptR segR pd0
      (updateStore store1 cid pname fr.1, false, fr.2)

/-- Outcome of one HTTP call against the Orthanc archive, as seen by the
requests library: either the call raised, or it completed with a status
code (and, for a successful create, the returned object id). -/
inductive HttpOutcome where
  | exc
  | resp (code : Nat) (newId : String)
  deriving DecidableEq, Repr

/-- Result of makeSEGDicom.  The source's early error returns hand back a
bare status instead of the (status, patientData) pair, so the caller's
unpacking raises: that shape mismatch is the malformed case.  Otherwise
the function returns its status flag and the updated session record. -/
inductive MakeResult where
  | malformed
  | ok (status : Bool) (pd : PatientData)

/-- Step 4 of makeSEGDicom (the DICOM packaging of steps 1 to 3 writes a
local file and is not modelled).  If no archive client exists, nothing is
posted and the status stays False.  With a client: when a published id
exists, issue the delete; only a raised exception aborts (any completed
status code, 404 or otherwise, is ignored).  Then post the new instance:
a raised exception aborts; a 200 adopts the returned id; any other status
keeps the previous id; in both completed cases the session's segOrthancID
is assigned and the status becomes True. -/
def makeSEGDicom (dcmAvail : Bool) (del crt : HttpOutcome)
    (pd : PatientData) : MakeResult :=
  if dcmAvail then
    match pd.segOrthancID, del with
    | some _, HttpOutcome.exc => MakeResult.malformed
    | _, _ =>
      match crt with
      | HttpOutcome.exc => MakeResult.malformed
      | HttpOutcome.resp code newId =>
        MakeResult.ok true
          { pd with segOrthancID := if code = 200 then some newId else pd.segOrthancID }
  else MakeResult.ok false pd

/-- The request-level failures /process surfaces as HTTP 500 errors. -/
inductive PErr where
  | noData
  | notReady
  | assertFailed
  | publishFailed
  | publishException
  deriving DecidableEq, Repr

/-- What one /process call produced: the session table afterwards, the
response, the tensor handed to the model (none when the turn aborted
before inference) and whether the publish step was reached. -/
structure ProcessResult where
  store : Store
  response : Except PErr Unit
  inferenceInput : Option RTensor
  publishAttempted : Bool

/-- The /process endpoint: look up the session; fail if absent or its
tensor was never fetched; deep-copy the tensor and assert channels 3 and 4
sum to zero; apply the scribble to the copy; run inference on it;
increment the scribble counter (before the publish, and in place, so the
stored session keeps the increment whatever follows); publish via
makeSEGDicom; fail the request if the publish reported failure or its
malformed early return made the unpacking raise. -/
noncomputable def process (store : Store) (cid pname : String)
    (pts : List Point) (scribbleType : String) (dcmAvail : Bool)
    (del crt : HttpOutcome) : ProcessResult :=
  match store cid pname with
  | none => ⟨store, Except.error PErr.noData, none, false⟩
  | some pd =>
    match pd.torchData with
    | none => ⟨store, Except.error PErr.notReady, none, false⟩
    | some t =>
      if tensorSum t 3 = 0 ∧ tensorSum t 4 = 0 then
        let preparedDataTorch :=
          (getDistanceMap (toR t) scribbleType pts DISTMAP_Z DISTMAP_SIGMA).1
        let pd1 := { pd with scribbleCounter := pd.scribbleCounter + 1 }
        match makeSEGDicom dcmAvail del crt pd1 with
        | MakeResult.malformed =>
          ⟨updateStore store cid pname pd1, Except.error PErr.publishException,
           some preparedDataTorch, true⟩
        | MakeResult.ok status pd2 =>
          ⟨updateStore store cid pname pd2,
           if status then Except.ok () else Except.error PErr.publishFailed,
           some preparedDataTorch, true⟩
      else ⟨store, Except.error PErr.assertFailed, none, false⟩

/-- States of the session table reachable through the two endpoints. -/
inductive Reachable : Store → Prop where
  | init : Reachable emptyStore
  | prep (s : Store) (cid pname : String) (payload : PreparedData)
      (sop ser dt : String) (dcmAvail : Bool) (ctR : Option FetchedCT)
      (ptR segR : Option (Voxel → ℤ)) :
      Reachable s →
      Reachable (prepare s cid pname payload sop ser dt dcmAvail ctR ptR segR).1
  | proc (s : Store) (cid pname : String) (pts : List Point) (st : String)
      (dcmAvail : Bool) (del crt : HttpOutcome) :
      Reachable s →
      Reachable (process s cid pname pts st dcmAvail del crt).store

/-! ## Helper lemmas about the session table and the endpoints -/

lemma lookup_updateStore_self (s : Store) (cid pname : String)
    (pd : PatientData) : updateStore s cid pname pd cid pname = some pd := by
  simp [updateStore]

lemma makeSEGDicom_frame (dcmAvail : Bool) (del crt : HttpOutcome)
    (pd : PatientData) (st : Bool) (pd2 : PatientData)
    (h : makeSEGDicom dcmAvail del crt pd = MakeResult.ok st pd2) :
    pd2.data = pd.data ∧ pd2.torchData = pd.torchData ∧
    pd2.dcmList = pd.dcmList ∧ pd2.scribbleCounter = pd.scribbleCounter ∧
    pd2.segSOPInstanceUID = pd.segSOPInstanceUID ∧
    pd2.segSeriesInstanceUID = pd.segSeriesInstanceUID ∧
    pd2.dateTime = pd.dateTime := by
  rcases dcmAvail
  · simp only [makeSEGDicom, Bool.false_eq_true, if_false] at h
    cases h
    exact ⟨rfl, rfl, rfl, rfl, rfl, rfl, rfl⟩
  · rcases ho : pd.segOrthancID with _ | oid <;>
      rcases del with _ | ⟨dc, dn⟩ <;>
      rcases crt with _ | ⟨cc, cn⟩ <;>
      simp only [makeSEGDicom, if_true, ho] at h <;>
      cases h <;>
      exact ⟨rfl, rfl, rfl, rfl, rfl, rfl, rfl⟩

lemma getDistanceMap_of_ambiguous (t : RTensor) (st : String)
    (pts : List Point) (dz : ℤ) (sg : ℚ)
    (h : getViewTypeAndSliceId pts = none) :
    (getDistanceMap t st pts dz sg).1 = t := by
  have hg : getGaussianDistanceMap t.shape pts dz sg = none := by
    unfold getGaussianDistanceMap
    rw [h]
  unfold getDistanceMap
  by_cases h1 : st = KEY_SCRIBBLE_FGD
  · rw [if_pos h1, hg]
  · rw [if_neg h1]
    by_cases h2 : st = KEY_SCRIBBLE_BGD
    · rw [if_pos h2, hg]
    · rw [if_neg h2]

lemma process_spec (store : Store) (cid pname : String) (pts : List Point)
    (st : String) (dcmAvail : Bool) (del crt : HttpOutcome)
    (pd : PatientData) (t : Tensor)
    (h : store cid pname = some pd) (ht : pd.torchData = some t)
    (hz : tensorSum t 3 = 0 ∧ tensorSum t 4 = 0) :
    process store cid pname pts st dcmAvail del crt =
      match makeSEGDicom dcmAvail del crt
          { pd with scribbleCounter := pd.scribbleCounter + 1 } with
      | MakeResult.malformed =>
        ⟨updateStore store cid pname
            { pd with scribbleCounter := pd.scribbleCounter + 1 },
         Except.error PErr.publishException,
         some (getDistanceMap (toR t) st pts DISTMAP_Z DISTMAP_SIGMA).1, true⟩
      | MakeResult.ok status pd2 =>
        ⟨updateStore store cid pname pd2,
         if status then Except.ok () else Except.error PErr.publishFailed,
         some (getDistanceMap (toR t) st pts DISTMAP_Z DISTMAP_SIGMA).1, true⟩ := by
  unfold process
  simp only [h]
  simp only [ht]
  rw [if_pos hz]

lemma process_store_unchanged_of_no_session (store : Store)
    (cid pname : String) (pts : List Point) (st : String) (dcmAvail : Bool)
    (del crt : HttpOutcome) (h : store cid pname = none) :
    process store cid pname pts st dcmAvail del crt =
      ⟨store, Except.error PErr.noData, none, false⟩ := by
  unfold process
  simp only [h]

lemma process_store_unchanged_of_not_ready (store : Store)
    (cid pname : String) (pts : List Point) (st : String) (dcmAvail : Bool)
    (del crt : HttpOutcome) (pd : PatientData)
    (h : store cid pname = some pd) (ht : pd.torchData = none) :
    process store cid pname pts st dcmAvail del crt =
      ⟨store, Except.error PErr.notReady, none, false⟩ := by
  unfold process
  simp only [h]
  simp only [ht]

lemma process_assert_failed (store : Store) (cid pname : String)
    (pts : List Point) (st : String) (dcmAvail : Bool) (del crt : HttpOutcome)
    (pd : PatientData) (t : Tensor)
    (h : store cid pname = some pd) (ht : pd.torchData = some t)
    (hz : ¬ (tensorSum t 3 = 0 ∧ tensorSum t 4 = 0)) :
    process store cid pname pts st dcmAvail del crt =
      ⟨store, Except.error PErr.assertFailed, none, false⟩ := by
  unfold process
  simp only [h]
  simp only [ht]
  rw [if_neg hz]

/-- The channels-3-and-4-are-zero invariant over the whole session table. -/
def GoodStore (s : Store) : Prop :=
  ∀ cid pname pd t, s cid pname = some pd → pd.torchData = some t →
    ∀ v, t.chan 3 v = 0 ∧ t.chan 4 v = 0

lemma goodStore_empty : GoodStore emptyStore := by
  intro cid pname pd t h
  simp [emptyStore] at h

lemma goodStore_update (s : Store) (hs : GoodStore s) (cid pname : String)
    (pd : PatientData)
    (hpd : ∀ t, pd.torchData = some t → ∀ v, t.chan 3 v = 0 ∧ t.chan 4 v = 0) :
    GoodStore (updateStore s cid pname pd) := by
  intro c p pd' t h ht
  unfold updateStore at h
  split at h
  · cases h
    exact hpd t ht
  · exact hs c p pd' t h ht

lemma fetchSession_good (dcmAvail : Bool) (ctR : Option FetchedCT)
    (ptR segR : Option (Voxel → ℤ)) (pd : PatientData)
    (hpd : pd.torchData = none) (t : Tensor)
    (ht : (fetchSession dcmAvail ctR ptR segR pd).1.torchData = some t) :
    ∀ v, t.chan 3 v = 0 ∧ t.chan 4 v = 0 := by
  unfold fetchSession at ht
  rcases dcmAvail
  · simp only [Bool.false_eq_true, if_false] at ht
    rw [hpd] at ht
    cases ht
  · simp only [if_true] at ht
    rcases ctR with _ | f
    · simp only at ht
      rw [hpd] at ht
      cases ht
    · rcases ptR with _ | pt
      · simp only [Option.map_some] at ht
        cases ht
        intro v
        constructor <;> rfl
      · rcases segR with _ | seg <;>
          simp only [Option.map_some] at ht <;> cases ht <;> intro v <;>
          constructor <;> rfl

lemma goodStore_prepare (s : Store) (hs : GoodStore s) (cid pname : String)
    (payload : PreparedData) (sop ser dt : String) (dcmAvail : Bool)
    (ctR : Option FetchedCT) (ptR segR : Option (Voxel → ℤ)) :
    GoodStore (prepare s cid pname payload sop ser dt dcmAvail ctR ptR segR).1 := by
  unfold prepare
  have hs1 : GoodStore (if (s cid pname).isSome then s
      else updateStore s cid pname (freshPatientData sop ser dt)) := by
    split
    · exact hs
    · exact goodStore_update s hs cid pname _ (by intro t ht; cases ht)
  set store1 := (if (s cid pname).isSome then s
      else updateStore s cid pname (freshPatientData sop ser dt)) with hstore1
  rcases hlook : store1 cid pname with _ | pd
  · simpa [hlook] using hs1
  · simp only [hlook]
    split
    · exact hs1
    · apply goodStore_update _ hs1
      intro t ht
      exact fetchSession_good dcmAvail ctR ptR segR _ rfl t ht

lemma goodStore_process (s : Store) (hs : GoodStore s) (cid pname : String)
    (pts : List Point) (st : String) (dcmAvail : Bool) (del crt : HttpOutcome) :
    GoodStore (process s cid pname pts st dcmAvail del crt).store := by
  rcases hlook : s cid pname with _ | pd
  · rw [process_store_unchanged_of_no_session s cid pname pts st dcmAvail del crt hlook]
    exact hs
  rcases htd : pd.torchData with _ | t
  · rw [process_store_unchanged_of_not_ready s cid pname pts st dcmAvail del crt pd hlook htd]
    exact hs
  by_cases hz : tensorSum t 3 = 0 ∧ tensorSum t 4 = 0
  · rw [process_spec s cid pname pts st dcmAvail del crt pd t hlook htd hz]
    rcases hmk : makeSEGDicom dcmAvail del crt
        { pd with scribbleCounter := pd.scribbleCounter + 1 } with _ | ⟨status, pd2⟩
    · apply goodStore_update _ hs
      intro t' ht'
      exact hs cid pname pd t' hlook (by simpa using ht')
    · apply goodStore_update _ hs
      intro t' ht'
      obtain ⟨_, htd2, _⟩ := makeSEGDicom_frame _ _ _ _ _ _ hmk
      have hpt : pd.torchData = some t' := by
        have : ({ pd with scribbleCounter := pd.scribbleCounter + 1 }
            : PatientData).torchData = pd.torchData := rfl
        rw [← this, ← htd2]
        exact ht'
      exact hs cid pname pd t' hlook hpt
  · rw [process_assert_failed s cid pname pts st dcmAvail del crt pd t hlook htd hz]
    exact hs

lemma reachable_goodStore (s : Store) (h : Reachable s) : GoodStore s := by
  induction h with
  | init => exact goodStore_empty
  | prep s cid pname payload sop ser dt dcmAvail ctR ptR segR _ ih =>
      exact goodStore_prepare s ih cid pname payload sop ser dt dcmAvail ctR ptR segR
  | proc s cid pname pts st dcmAvail del crt _ ih =>
      exact goodStore_process s ih cid pname pts st dcmAvail del crt

lemma tensorSum_eq_zero (t : Tensor) (i : Fin 5)
    (h : ∀ v, t.chan i v = 0) : tensorSum t i = 0 := by
  unfold tensorSum
  apply List.sum_eq_zero
  intro x hx
  obtain ⟨v, _, hv⟩ := List.mem_map.mp hx
  rw [← hv, h]

/-- C7: if a session exists and its stored descriptor deeply equals the
incoming one, /prepare returns the table unchanged with
dataAlreadyPresent = true and performs no archive fetch; a differing
descriptor makes it report fresh data and (when an archive client is
available) start a full re-fetch beginning with the CT series. -/
theorem prepare_idempotent (store : Store) (cid pname : String)
    (payload : PreparedData) (sop ser dt : String) (dcmAvail : Bool)
    (ctR : Option FetchedCT) (ptR segR : Option (Voxel → ℤ))
    (pd : PatientData) (h : store cid pname = some pd) :
    (pd.data = some payload →
      prepare store cid pname payload sop ser dt dcmAvail ctR ptR segR
        = (store, true, [])) ∧
    (pd.data ≠ some payload →
      (prepare store cid pname payload sop ser dt dcmAvail ctR ptR segR).2.1
          = false ∧
      (dcmAvail = true →
        "CT" ∈ (prepare store cid pname payload sop ser dt dcmAvail ctR ptR
          segR).2.2)) := by
  have hsome : (store cid pname).isSome = true := by rw [h]; rfl
  have hct : ∀ (ctR2 : Option FetchedCT) (ptR2 segR2 : Option (Voxel → ℤ))
      (pd2 : PatientData), "CT" ∈ (fetchSession true ctR2 ptR2 segR2 pd2).2 := by
    intro ctR2 ptR2 segR2 pd2
    unfold fetchSession
    rw [if_pos rfl]
    rcases ctR2 with _ | f
    · simp
    · rcases ptR2 with _ | pt
      · simp
      · rcases segR2 with _ | seg <;> simp
  constructor
  · intro hd
    unfold prepare
    rw [if_pos hsome]
    simp only [h]
    rw [if_pos hd]
  · intro hd
    unfold prepare
    rw [if_pos hsome]
    simp only [h]
    rw [if_neg hd]
    refine ⟨rfl, ?_⟩
    intro hdcm
    subst hdcm
    exact hct ctR ptR segR _

lemma process_store_of_pass (store : Store) (cid pname : String)
    (pts : List Point) (st : String) (dcmAvail : Bool) (del crt : HttpOutcome)
    (pd : PatientData) (t : Tensor)
    (h : store cid pname = some pd) (ht : pd.torchData = some t)
    (hz : tensorSum t 3 = 0 ∧ tensorSum t 4 = 0) :
    ∃ pd2, (process store cid pname pts st dcmAvail del crt).store
        = updateStore store cid pname pd2 ∧
      pd2.scribbleCounter = pd.scribbleCounter + 1 ∧
      pd2.data = pd.data ∧ pd2.torchData = pd.torchData ∧
      pd2.dcmList = pd.dcmList ∧
      pd2.segSOPInstanceUID = pd.segSOPInstanceUID ∧
      pd2.segSeriesInstanceUID = pd.segSeriesInstanceUID ∧
      pd2.dateTime = pd.dateTime := by
  rcases hmk : makeSEGDicom dcmAvail del crt
      { pd with scribbleCounter := pd.scribbleCounter + 1 } with _ | ⟨status, pd2⟩
  · refine ⟨{ pd with scribbleCounter := pd.scribbleCounter + 1 },
      ?_, rfl, rfl, rfl, rfl, rfl, rfl, rfl⟩
    rw [process_spec store cid pname pts st dcmAvail del crt pd t h ht hz, hmk]
  · obtain ⟨hdata, htd2, hdcm, hcnt, hsop, hser, hdt⟩ :=
      makeSEGDicom_frame _ _ _ _ _ _ hmk
    refine ⟨pd2, ?_, hcnt, hdata, htd2, hdcm, hsop, hser, hdt⟩
    rw [process_spec store cid pname pts st dcmAvail del crt pd t h ht hz, hmk]

lemma process_inference_of_pass (store : Store) (cid pname : String)
    (pts : List Point) (st : String) (dcmAvail : Bool) (del crt : HttpOutcome)
    (pd : PatientData) (t : Tensor)
    (h : store cid pname = some pd) (ht : pd.torchData = some t)
    (hz : tensorSum t 3 = 0 ∧ tensorSum t 4 = 0) :
    (process store cid pname pts st dcmAvail del crt).inferenceInput
      = some (getDistanceMap (toR t) st pts DISTMAP_Z DISTMAP_SIGMA).1 := by
  rw [process_spec store cid pname pts st dcmAvail del crt pd t h ht hz]
  rcases hmk : makeSEGDicom dcmAvail del crt
      { pd with scribbleCounter := pd.scribbleCounter + 1 } with _ | ⟨status, pd2⟩ <;> rfl

lemma process_publish_of_pass (store : Store) (cid pname : String)
    (pts : List Point) (st : String) (dcmAvail : Bool) (del crt : HttpOutcome)
    (pd : PatientData) (t : Tensor)
    (h : store cid pname = some pd) (ht : pd.torchData = some t)
    (hz : tensorSum t 3 = 0 ∧ tensorSum t 4 = 0) :
    (process store cid pname pts st dcmAvail del crt).publishAttempted = true := by
  rw [process_spec store cid pname pts st dcmAvail del crt pd t h ht hz]
  rcases hmk : makeSEGDicom dcmAvail del crt
      { pd with scribbleCounter := pd.scribbleCounter + 1 } with _ | ⟨status, pd2⟩ <;> rfl

/-- Whether a /process call on this session gets past the lookup and the
channels-3/4 assertion (the point after which the scribble counter is
incremented no matter how the turn ends). -/
def processChecksPass (pd : PatientData) : Bool :=
  match pd.torchData with
  | none => false
  | some t => decide (tensorSum t 3 = 0 ∧ tensorSum t 4 = 0)

/-! ## Concrete session scenario used by the witnesses -/

/-- A concrete /prepare payload. -/
def cPrepared : PreparedData :=
  ⟨⟨"st", "se", "so", "w"⟩, ⟨"st2", "se2", "so2", "w"⟩,
   ⟨"", "", "", ""⟩, ⟨"", "", "", ""⟩, "p"⟩

/-- A concrete all-zero cached tensor over a 2x2x2 volume. -/
def cTensor : Tensor := ⟨⟨2, 2, 2⟩, fun _ _ => 0⟩

/-- A concrete ready session with one prior publish. -/
def cPd : PatientData :=
  ⟨some cPrepared, some cTensor, [], 0, "sop", "ser", some "old", "dt"⟩

/-- A session table holding only the concrete session. -/
def cStore : Store := updateStore emptyStore "c" "p" cPd

/-- A concrete CT fetch result. -/
def cFetched : FetchedCT := ⟨⟨2, 2, 2⟩, fun _ => 0, []⟩

/-- The tensor /prepare builds from the concrete CT fetch. -/
def cFetchedTensor : Tensor := buildTensor ⟨2, 2, 2⟩ (fun _ => 0)

/-- The session record /prepare builds from the concrete CT fetch. -/
def cFetchedPd : PatientData :=
  ⟨some cPrepared, some cFetchedTensor, [], 0, "sop", "ser", none, "dt"⟩

/-- The session table after one concrete /prepare on the empty table. -/
def cPrepStore : Store :=
  (prepare emptyStore "c" "p" cPrepared "sop" "ser" "dt" true
    (some cFetched) none none).1

/-- A concrete ambiguous scribble: no axis carries a shared coordinate. -/
def cAmbPts : List Point := [((0 : Int), 0, 0), ((1 : Int), 1, 1)]

/-! ## Claims about the endpoints -/

/-- C4 counterexample: on the ambiguous scribble [(0,0,0),(1,1,1)] the view
detection fails, yet /process does not fail: the swallowed error leaves
the copied tensor untouched and the request proceeds to inference and
publish, ending in a success response. -/
theorem process_ambiguous_scribble_proceeds_cex :
    getViewTypeAndSliceId cAmbPts = none ∧
    (process cStore "c" "p" cAmbPts KEY_SCRIBBLE_FGD true
        (HttpOutcome.resp 200 "") (HttpOutcome.resp 200 "new")).response
      = Except.ok () ∧
    (process cStore "c" "p" cAmbPts KEY_SCRIBBLE_FGD true
        (HttpOutcome.resp 200 "") (HttpOutcome.resp 200 "new")).publishAttempted
      = true ∧
    (process cStore "c" "p" cAmbPts KEY_SCRIBBLE_FGD true
        (HttpOutcome.resp 200 "") (HttpOutcome.resp 200 "new")).inferenceInput
      = some (toR cTensor) :=
  ⟨rfl, rfl, rfl, rfl⟩

/-- C4 amended: for an ambiguous scribble the failure is swallowed: no
prior is written (the tensor handed to inference is exactly the copy of
the cached tensor), the cached tensor is not mutated, but the request
proceeds to inference and publish instead of failing. -/
theorem process_ambiguous_scribble_swallowed (store : Store)
    (cid pname : String) (pts : List Point) (st : String) (dcmAvail : Bool)
    (del crt : HttpOutcome) (pd : PatientData) (t : Tensor)
    (h : store cid pname = some pd) (ht : pd.torchData = some t)
    (hz : tensorSum t 3 = 0 ∧ tensorSum t 4 = 0)
    (hamb : getViewTypeAndSliceId pts = none) :
    (process store cid pname pts st dcmAvail del crt).inferenceInput
      = some (toR t) ∧
    (process store cid pname pts st dcmAvail del crt).publishAttempted = true ∧
    (∀ pd', (process store cid pname pts st dcmAvail del crt).store cid pname
      = some pd' → pd'.torchData = pd.torchData) := by
  refine ⟨?_, process_publish_of_pass store cid pname pts st dcmAvail del crt
    pd t h ht hz, ?_⟩
  · rw [process_inference_of_pass store cid pname pts st dcmAvail del crt
      pd t h ht hz]
    rw [getDistanceMap_of_ambiguous (toR t) st pts DISTMAP_Z DISTMAP_SIGMA hamb]
  · intro pd' h'
    obtain ⟨pd2, hst, _, _, htd2, _⟩ :=
      process_store_of_pass store cid pname pts st dcmAvail del crt pd t h ht hz
    rw [hst, lookup_updateStore_self] at h'
    cases h'
    exact htd2

/-- Witness for the amended C4 on the concrete session. -/
theorem process_ambiguous_scribble_swallowed_witness :
    (process cStore "c" "p" cAmbPts KEY_SCRIBBLE_FGD true
        (HttpOutcome.resp 404 "") (HttpOutcome.resp 200 "n")).inferenceInput
      = some (toR cTensor) ∧
    (process cStore "c" "p" cAmbPts KEY_SCRIBBLE_FGD true
        (HttpOutcome.resp 404 "") (HttpOutcome.resp 200 "n")).publishAttempted
      = true ∧
    (∀ pd', (process cStore "c" "p" cAmbPts KEY_SCRIBBLE_FGD true
        (HttpOutcome.resp 404 "") (HttpOutcome.resp 200 "n")).store "c" "p"
      = some pd' → pd'.torchData = cPd.torchData) :=
  process_ambiguous_scribble_swallowed cStore "c" "p" cAmbPts KEY_SCRIBBLE_FGD
    true (HttpOutcome.resp 404 "") (HttpOutcome.resp 200 "n") cPd cTensor
    rfl rfl ⟨rfl, rfl⟩ rfl

/-- C5 counterexample: a create completing with HTTP 500 does not abort the
publish: makeSEGDicom still reports success (with segOrthancID unchanged),
and the /process request ends in a success response instead of a
publish-failed condition. -/
theorem makeSEGDicom_create_failure_reports_success_cex :
    makeSEGDicom true (HttpOutcome.resp 200 "") (HttpOutcome.resp 500 "") cPd
      = MakeResult.ok true cPd ∧
    (process cStore "c" "p" [((0 : Int), 0, 0)] KEY_SCRIBBLE_FGD true
        (HttpOutcome.resp 200 "") (HttpOutcome.resp 500 "")).response
      = Except.ok () :=
  ⟨rfl, rfl⟩

/-- C5 amended: a publish is aborted with a propagated failure only when a
step raises an exception (or no archive client exists, where the status
stays false): a delete raising with a published id present, or a create
raising, yields the malformed early return whose unpacking fails in the
caller, and then the session's segOrthancID is left unchanged; but a
delete that completes with any status code never aborts, and a create
completing with a non-success status leaves segOrthancID unchanged while
the publish still reports success; a create completing with 200 installs
the returned id. -/
theorem makeSEGDicom_failure_semantics (del crt : HttpOutcome)
    (pd : PatientData) :
    (pd.segOrthancID ≠ none → del = HttpOutcome.exc →
      makeSEGDicom true del crt pd = MakeResult.malformed) ∧
    (crt = HttpOutcome.exc →
      makeSEGDicom true del crt pd = MakeResult.malformed) ∧
    ((del ≠ HttpOutcome.exc ∨ pd.segOrthancID = none) →
      ∀ c b, crt = HttpOutcome.resp c b → c ≠ 200 →
        makeSEGDicom true del crt pd = MakeResult.ok true pd) ∧
    ((del ≠ HttpOutcome.exc ∨ pd.segOrthancID = none) →
      ∀ b, crt = HttpOutcome.resp 200 b →
        makeSEGDicom true del crt pd
          = MakeResult.ok true { pd with segOrthancID := some b }) ∧
    (makeSEGDicom false del crt pd = MakeResult.ok false pd) ∧
    (∀ (store : Store) (cid pname : String) (pts : List Point) (st : String)
        (pd0 : PatientData), crt = HttpOutcome.exc →
      store cid pname = some pd0 →
      (process store cid pname pts st true del crt).response ≠ Except.ok () ∧
      (∀ pd', (process store cid pname pts st true del crt).store cid pname
        = some pd' → pd'.segOrthancID = pd0.segOrthancID)) := by
  have hexc : ∀ pd1 : PatientData,
      makeSEGDicom true del HttpOutcome.exc pd1 = MakeResult.malformed := by
    intro pd1
    rcases ho : pd1.segOrthancID with _ | oid <;>
      rcases del with _ | ⟨dc, dn⟩ <;> simp [makeSEGDicom, ho]
  refine ⟨?_, ?_, ?_, ?_, ?_, ?_⟩
  · intro hoid hdel
    subst hdel
    rcases ho : pd.segOrthancID with _ | oid
    · exact absurd ho hoid
    · simp [makeSEGDicom, ho]
  · intro hcrt
    subst hcrt
    exact hexc pd
  · intro hdel c b hcrt hc
    subst hcrt
    obtain ⟨d1, d2, d3, d4, d5, d6, d7, d8⟩ := pd
    rcases d7 with _ | oid <;> rcases hd : del with _ | ⟨dc, dn⟩
    · simp [makeSEGDicom, hc]
    · simp [makeSEGDicom, hc]
    · rcases hdel with hdel | hdel
      · exact absurd hd hdel
      · exact absurd hdel (by simp)
    · simp [makeSEGDicom, hc]
  · intro hdel b hcrt
    subst hcrt
    obtain ⟨d1, d2, d3, d4, d5, d6, d7, d8⟩ := pd
    rcases d7 with _ | oid <;> rcases hd : del with _ | ⟨dc, dn⟩
    · simp [makeSEGDicom]
    · simp [makeSEGDicom]
    · rcases hdel with hdel | hdel
      · exact absurd hd hdel
      · exact absurd hdel (by simp)
    · simp [makeSEGDicom]
  · simp [makeSEGDicom]
  · intro store cid pname pts st pd0 hcrt h0
    subst hcrt
    rcases htd : pd0.torchData with _ | t
    · rw [process_store_unchanged_of_not_ready store cid pname pts st true
        del HttpOutcome.exc pd0 h0 htd]
      refine ⟨by simp, ?_⟩
      intro pd' h'
      have h'' : store cid pname = some pd' := h'
      rw [h0] at h''
      cases h''
      rfl
    · by_cases hz : tensorSum t 3 = 0 ∧ tensorSum t 4 = 0
      · have hmk : makeSEGDicom true del HttpOutcome.exc
            { pd0 with scribbleCounter := pd0.scribbleCounter + 1 }
            = MakeResult.malformed := hexc _
        rw [process_spec store cid pname pts st true del HttpOutcome.exc
          pd0 t h0 htd hz, hmk]
        refine ⟨by simp, ?_⟩
        intro pd' h'
        have h'' : updateStore store cid pname
            { pd0 with scribbleCounter := pd0.scribbleCounter + 1 } cid pname
            = some pd' := h'
        rw [lookup_updateStore_self] at h''
        cases h''
        rfl
      · rw [process_assert_failed store cid pname pts st true del
          HttpOutcome.exc pd0 t h0 htd hz]
        refine ⟨by simp, ?_⟩
        intro pd' h'
        have h'' : store cid pname = some pd' := h'
        rw [h0] at h''
        cases h''
        rfl

/-- Witness for the amended C5: with a published id present, a raised
delete aborts the publish with the malformed early return. -/
theorem makeSEGDicom_failure_semantics_witness :
    makeSEGDicom true HttpOutcome.exc (HttpOutcome.resp 200 "x") cPd
      = MakeResult.malformed :=
  (makeSEGDicom_failure_semantics HttpOutcome.exc (HttpOutcome.resp 200 "x")
    cPd).1 (by decide) rfl

/-- C6 counterexample: a refine turn whose publish raises (create throws)
fails the request, yet the session's scribbleCounter has already been
incremented from 0 to 1, so failed turns do affect the counter. -/
theorem scribbleCounter_incremented_on_failed_publish_cex :
    cPd.scribbleCounter = 0 ∧
    (process cStore "c" "p" [((0 : Int), 0, 0)] KEY_SCRIBBLE_FGD true
        (HttpOutcome.resp 200 "x") HttpOutcome.exc).response
      = Except.error PErr.publishException ∧
    (process cStore "c" "p" [((0 : Int), 0, 0)] KEY_SCRIBBLE_FGD true
        (HttpOutcome.resp 200 "x") HttpOutcome.exc).store "c" "p"
      = some { cPd with scribbleCounter := 1 } :=
  ⟨rfl, rfl, rfl⟩

/-- C6 amended: the scribbleCounter never decreases across /process calls,
and it is incremented exactly once per turn that reaches the scribble
stage (session present, tensor fetched, priors assertion passed),
regardless of whether the publish afterwards succeeds or fails; turns that
fail the initial checks leave it unchanged. -/
theorem scribbleCounter_increment_semantics (store : Store)
    (cid pname : String) (pts : List Point) (st : String) (dcmAvail : Bool)
    (del crt : HttpOutcome) (pd pd' : PatientData)
    (h : store cid pname = some pd)
    (h' : (process store cid pname pts st dcmAvail del crt).store cid pname
      = some pd') :
    pd.scribbleCounter ≤ pd'.scribbleCounter ∧
    (processChecksPass pd = true →
      pd'.scribbleCounter = pd.scribbleCounter + 1) ∧
    (processChecksPass pd = false →
      pd'.scribbleCounter = pd.scribbleCounter) := by
  rcases htd : pd.torchData with _ | t
  · rw [process_store_unchanged_of_not_ready store cid pname pts st dcmAvail
      del crt pd h htd] at h'
    have h'' : store cid pname = some pd' := h'
    rw [h] at h''
    cases h''
    refine ⟨le_refl _, ?_, fun _ => rfl⟩
    intro hcp
    simp [processChecksPass, htd] at hcp
  · by_cases hz : tensorSum t 3 = 0 ∧ tensorSum t 4 = 0
    · obtain ⟨pd2, hst, hcnt, _⟩ :=
        process_store_of_pass store cid pname pts st dcmAvail del crt pd t
          h htd hz
      rw [hst, lookup_updateStore_self] at h'
      cases h'
      have hcp : processChecksPass pd = true := by
        simp [processChecksPass, htd, hz]
      refine ⟨?_, fun _ => hcnt, ?_⟩
      · rw [hcnt]
        omega
      · intro hcp'
        rw [hcp] at hcp'
        cases hcp'
    · rw [process_assert_failed store cid pname pts st dcmAvail del crt pd t
        h htd hz] at h'
      have h'' : store cid pname = some pd' := h'
      rw [h] at h''
      cases h''
      refine ⟨le_refl _, ?_, fun _ => rfl⟩
      intro hcp
      simp [processChecksPass, htd] at hcp
      exact absurd hcp hz

/-- Witness for the amended C6 on the concrete session: a successful turn
moves the counter from 0 to 1. -/
theorem scribbleCounter_increment_semantics_witness :
    cPd.scribbleCounter ≤
      ({ cPd with scribbleCounter := 1, segOrthancID := some "n" }
        : PatientData).scribbleCounter ∧
    (processChecksPass cPd = true →
      ({ cPd with scribbleCounter := 1, segOrthancID := some "n" }
        : PatientData).scribbleCounter = cPd.scribbleCounter + 1) ∧
    (processChecksPass cPd = false →
      ({ cPd with scribbleCounter := 1, segOrthancID := some "n" }
        : PatientData).scribbleCounter = cPd.scribbleCounter) :=
  scribbleCounter_increment_semantics cStore "c" "p" [((0 : Int), 0, 0)]
    KEY_SCRIBBLE_FGD true (HttpOutcome.resp 200 "x") (HttpOutcome.resp 200 "n")
    cPd { cPd with scribbleCounter := 1, segOrthancID := some "n" } rfl rfl

/-- C8: in every reachable session table, channels 3 and 4 of a session's
cached tensor are zero everywhere (so they are zero immediately before a
scribble is applied to the deep copy), the torch.sum assertion over them
passes, and any session whose tensor violates the assertion makes the
/process request fail with the assertion error before any mutation. -/
theorem priors_zero_before_scribble (store : Store) (hr : Reachable store)
    (cid pname : String) (pd : PatientData) (t : Tensor)
    (h : store cid pname = some pd) (ht : pd.torchData = some t) :
    (∀ v, t.chan 3 v = 0 ∧ t.chan 4 v = 0) ∧
    (tensorSum t 3 = 0 ∧ tensorSum t 4 = 0) ∧
    (∀ (store2 : Store) (cid2 pname2 : String) (pts : List Point)
        (st : String) (dcmAvail : Bool) (del crt : HttpOutcome)
        (pd2 : PatientData) (t2 : Tensor),
      store2 cid2 pname2 = some pd2 → pd2.torchData = some t2 →
      ¬ (tensorSum t2 3 = 0 ∧ tensorSum t2 4 = 0) →
      process store2 cid2 pname2 pts st dcmAvail del crt =
        ⟨store2, Except.error PErr.assertFailed, none, false⟩) := by
  have hg := reachable_goodStore store hr cid pname pd t h ht
  refine ⟨hg, ⟨tensorSum_eq_zero t 3 (fun v => (hg v).1),
    tensorSum_eq_zero t 4 (fun v => (hg v).2)⟩, ?_⟩
  intro store2 cid2 pname2 pts st dcmAvail del crt pd2 t2 h2 ht2 hz
  exact process_assert_failed store2 cid2 pname2 pts st dcmAvail del crt
    pd2 t2 h2 ht2 hz

/-- Witness for C8 on the table produced by one concrete /prepare. -/
theorem priors_zero_before_scribble_witness :
    (∀ v, cFetchedTensor.chan 3 v = 0 ∧ cFetchedTensor.chan 4 v = 0) ∧
    (tensorSum cFetchedTensor 3 = 0 ∧ tensorSum cFetchedTensor 4 = 0) ∧
    (∀ (store2 : Store) (cid2 pname2 : String) (pts : List Point)
        (st : String) (dcmAvail : Bool) (del crt : HttpOutcome)
        (pd2 : PatientData) (t2 : Tensor),
      store2 cid2 pname2 = some pd2 → pd2.torchData = some t2 →
      ¬ (tensorSum t2 3 = 0 ∧ tensorSum t2 4 = 0) →
      process store2 cid2 pname2 pts st dcmAvail del crt =
        ⟨store2, Except.error PErr.assertFailed, none, false⟩) :=
  priors_zero_before_scribble cPrepStore
    (Reachable.prep emptyStore "c" "p" cPrepared "sop" "ser" "dt" true
      (some cFetched) none none Reachable.init)
    "c" "p" cFetchedPd cFetchedTensor rfl rfl

/-- C10: a /process call never changes the session's cached tensor or its
descriptor, instance list, SEG UIDs or creation time: only the scribble
counter and the published orthanc id can change; and the tensor handed to
inference, when the turn gets that far, is the scribble transform of a
deep copy of the cached tensor. -/
theorem process_session_frame (store : Store) (cid pname : String)
    (pts : List Point) (st : String) (dcmAvail : Bool) (del crt : HttpOutcome)
    (pd pd' : PatientData)
    (h : store cid pname = some pd)
    (h' : (process store cid pname pts st dcmAvail del crt).store cid pname
      = some pd') :
    pd'.torchData = pd.torchData ∧ pd'.data = pd.data ∧
    pd'.dcmList = pd.dcmList ∧
    pd'.segSOPInstanceUID = pd.segSOPInstanceUID ∧
    pd'.segSeriesInstanceUID = pd.segSeriesInstanceUID ∧
    pd'.dateTime = pd.dateTime ∧
    (∀ t, pd.torchData = some t →
      (process store cid pname pts st dcmAvail del crt).inferenceInput = none ∨
      (process store cid pname pts st dcmAvail del crt).inferenceInput =
        some (getDistanceMap (toR t) st pts DISTMAP_Z DISTMAP_SIGMA).1) := by
  rcases htd : pd.torchData with _ | t
  · rw [process_store_unchanged_of_not_ready store cid pname pts st dcmAvail
      del crt pd h htd] at h'
    have h'' : store cid pname = some pd' := h'
    rw [h] at h''
    cases h''
    refine ⟨htd, rfl, rfl, rfl, rfl, rfl, ?_⟩
    intro t0 ht0
    cases ht0
  · by_cases hz : tensorSum t 3 = 0 ∧ tensorSum t 4 = 0
    · obtain ⟨pd2, hst, _, hdata, htd2, hdcm, hsop, hser, hdt⟩ :=
        process_store_of_pass store cid pname pts st dcmAvail del crt pd t
          h htd hz
      rw [hst, lookup_updateStore_self] at h'
      cases h'
      refine ⟨htd2.trans htd, hdata, hdcm, hsop, hser, hdt, ?_⟩
      intro t0 ht0
      cases ht0
      right
      exact process_inference_of_pass store cid pname pts st dcmAvail del crt
        pd t h htd hz
    · rw [process_assert_failed store cid pname pts st dcmAvail del crt pd t
        h htd hz] at h'
      have h'' : store cid pname = some pd' := h'
      rw [h] at h''
      cases h''
      refine ⟨htd, rfl, rfl, rfl, rfl, rfl, ?_⟩
      intro t0 ht0
      left
      rw [process_assert_failed store cid pname pts st dcmAvail del crt pd t
        h htd hz]

/-- Witness for C10 on the concrete session and a successful turn. -/
theorem process_session_frame_witness :
    ({ cPd with scribbleCounter := 1, segOrthancID := some "n2" }
        : PatientData).torchData = cPd.torchData ∧
    ({ cPd with scribbleCounter := 1, segOrthancID := some "n2" }
        : PatientData).data = cPd.data ∧
    ({ cPd with scribbleCounter := 1, segOrthancID := some "n2" }
        : PatientData).dcmList = cPd.dcmList ∧
    ({ cPd with scribbleCounter := 1, segOrthancID := some "n2" }
        : PatientData).segSOPInstanceUID = cPd.segSOPInstanceUID ∧
    ({ cPd with scribbleCounter := 1, segOrthancID := some "n2" }
        : PatientData).segSeriesInstanceUID = cPd.segSeriesInstanceUID ∧
    ({ cPd with scribbleCounter := 1, segOrthancID := some "n2" }
        : PatientData).dateTime = cPd.dateTime ∧
    (∀ t, cPd.torchData = some t →
      (process cStore "c" "p" [((0 : Int), 0, 0)] KEY_SCRIBBLE_FGD true
          (HttpOutcome.resp 200 "x") (HttpOutcome.resp 200 "n2")).inferenceInput
        = none ∨
      (process cStore "c" "p" [((0 : Int), 0, 0)] KEY_SCRIBBLE_FGD true
          (HttpOutcome.resp 200 "x") (HttpOutcome.resp 200 "n2")).inferenceInput
        = some (getDistanceMap (toR t) KEY_SCRIBBLE_FGD [((0 : Int), 0, 0)]
            DISTMAP_Z DISTMAP_SIGMA).1) :=
  process_session_frame cStore "c" "p" [((0 : Int), 0, 0)] KEY_SCRIBBLE_FGD
    true (HttpOutcome.resp 200 "x") (HttpOutcome.resp 200 "n2") cPd
    { cPd with scribbleCounter := 1, segOrthancID := some "n2" } rfl rfl

/-- Witness for C7: a second /prepare with the descriptor already stored
returns the table unchanged, reports the data as already present and
performs no fetch. -/
theorem prepare_idempotent_witness :
    prepare cStore "c" "p" cPrepared "s1" "s2" "d" true none none none
      = (cStore, true, []) :=
  (prepare_idempotent cStore "c" "p" cPrepared "s1" "s2" "d" true none none
    none cPd rfl).1 rfl

end InteractiveServer
